import Mathlib

/-!
Shallow embedding of the VK → Chatwoot webhook bridge.

The repository holds several near-duplicate drafts of the same pipeline.
They are embedded separately where they differ in behavior:
- `Api1` : the first `ApiService` draft in src/src/vk/api.service.ts
  (lines 1-297): cache → search → create, `null` on failure.
- `Api2` : the second `ApiService` draft in the same file (lines 298-575):
  same shape, but on failure it synthesizes `Date.now()` as a fallback id.
- `Api0` : the `ApiService` draft in src/unnamed/part_000: `sendMessage`
  returns true on any 2xx response without checking the message id.
- `Ctrl1` : the first `VkController` draft in src/src/vk/vk.controller.ts
  (lines 1-171); the draft in src/unnamed/part_002 has the same structure
  (more event types logged, all without side effects).
- `Ctrl2` : the second `VkController` draft (lines 172-421), the only one
  with a shared-secret check; it throws HttpException on secret or group
  mismatch, and its outer catch converts every throw into the "ok" reply.

Remote HTTP calls are modeled by a `World` oracle: `none` stands for a
thrown error (network failure or a non-2xx status, which the axios client
raises as an exception), and `some r` for a 2xx response whose relevant
fields are `r`.  JavaScript falsiness of numeric ids is modeled by the
value 0; absent or empty string fields are `none` or `""`.
-/

set_option linter.unusedVariables false

namespace Webhook

/-- The in-memory identity cache `contactMap : Map<number, number>` from
external VK user id to Chatwoot contact id.  `set` prepends, and `lookup`
takes the first match, which models `Map.set` overwrite semantics. -/
abbrev Cache := List (Nat × Nat)

def Cache.lookup : Cache → Nat → Option Nat
  | [], _ => none
  | (k, v) :: rest, key => if k = key then some v else Cache.lookup rest key

def Cache.set (c : Cache) (k v : Nat) : Cache := (k, v) :: c

/-- Counts of remote calls against the helpdesk API, one field per
endpoint kind: contact search, contact create, conversation search,
conversation create, message create. -/
structure Calls where
  contactSearch : Nat
  contactCreate : Nat
  convSearch : Nat
  convCreate : Nat
  msgCreate : Nat
deriving DecidableEq, Repr

def Calls.zero : Calls := ⟨0, 0, 0, 0, 0⟩

def Calls.add (a b : Calls) : Calls :=
  ⟨a.contactSearch + b.contactSearch, a.contactCreate + b.contactCreate,
   a.convSearch + b.convSearch, a.convCreate + b.convCreate,
   a.msgCreate + b.msgCreate⟩

/-- Helper for `jsTrim`: drop leading whitespace characters. -/
def dropLeadingWs : List Char → List Char
  | [] => []
  | c :: rest => if c.isWhitespace then dropLeadingWs rest else c :: rest

/-- JavaScript `String.prototype.trim()`: strip leading and trailing
whitespace.  Implemented by structural recursion on the character list
so that concrete instances evaluate inside the kernel. -/
def jsTrim (s : String) : String :=
  String.mk (dropLeadingWs (dropLeadingWs s.data.reverse).reverse)

/-- One conversation record as read from the conversation-search payload:
only the fields the code inspects (`id`, `contact_id`, `status`). -/
structure Conv where
  id : Nat
  contactId : Nat
  status : String
deriving DecidableEq, Repr

/-- The oracle for the remote world.  For each endpoint, `none` models a
thrown error (network failure / timeout / non-2xx); `some r` models a 2xx
response.  For create endpoints the inner `Option Nat` is the id the code
extracts from the response body (`none` when the body lacks it).  `now` is
the value of `Date.now()` during this delivery. -/
structure World where
  contactSearchResp : Option (List Nat)
  contactCreateResp : Option (Option Nat)
  convSearchResp : Option (List Conv)
  convCreateResp : Option (Option Nat)
  msgCreateResp : Option (Option Nat)
  now : Nat
deriving DecidableEq, Repr

/-- First ApiService draft, `getOrCreateContact` (api.service.ts lines
58-143).  Cache hit returns at once with no call.  Otherwise search by the
identifier; a non-empty payload yields its first element, cached.
Otherwise create; the extracted id (`data?.contact?.id || data?.id`) must
be truthy or the code throws.  The surrounding try/catch converts every
thrown error into a `null` result, with nothing cached. -/
def Api1.getOrCreateContact (cache : Cache) (w : World) (vkUserId : Nat) :
    Option Nat × Cache × Calls :=
  match Cache.lookup cache vkUserId with
  | some cid => (some cid, cache, Calls.zero)
  | none =>
    match w.contactSearchResp with
    | none => (none, cache, ⟨1, 0, 0, 0, 0⟩)
    | some (contact :: _) =>
        (some contact, Cache.set cache vkUserId contact, ⟨1, 0, 0, 0, 0⟩)
    | some [] =>
      match w.contactCreateResp with
      | none => (none, cache, ⟨1, 1, 0, 0, 0⟩)
      | some none => (none, cache, ⟨1, 1, 0, 0, 0⟩)
      | some (some cid) =>
        if cid = 0 then (none, cache, ⟨1, 1, 0, 0, 0⟩)
        else (some cid, Cache.set cache vkUserId cid, ⟨1, 1, 0, 0, 0⟩)

/-- First ApiService draft, `getOrCreateConversation` (api.service.ts
lines 145-228).  A falsy contact id returns `null` with no call.  The
search result is scanned with `payload.find(conv => conv.status ===
"open")`; on a hit its id is returned.  Otherwise create; a falsy
extracted id throws, and the catch yields `null`. -/
def Api1.getOrCreateConversation (w : World) (vkUserId : Nat)
    (contactId : Nat) : Option Nat × Calls :=
  if contactId = 0 then (none, Calls.zero)
  else
    match w.convSearchResp with
    | none => (none, ⟨0, 0, 1, 0, 0⟩)
    | some payload =>
      match payload.find? (fun conv => conv.status == "open") with
      | some conv => (some conv.id, ⟨0, 0, 1, 0, 0⟩)
      | none =>
        match w.convCreateResp with
        | none => (none, ⟨0, 0, 1, 1, 0⟩)
        | some none => (none, ⟨0, 0, 1, 1, 0⟩)
        | some (some cid) =>
          if cid = 0 then (none, ⟨0, 0, 1, 1, 0⟩)
          else (some cid, ⟨0, 0, 1, 1, 0⟩)

/-- First ApiService draft, `sendMessage` (api.service.ts lines 230-275).
The guard `!conversationId || !content || content.trim().length === 0`
(a falsy conversation id, or text empty after trimming) skips with no
call.  Otherwise POST; the result is true exactly when the call returned
2xx and `response.data && response.data.id` is truthy. -/
def Api1.sendMessage (w : World) (conversationId : Nat) (content : String) :
    Bool × Calls :=
  if conversationId = 0 ∨ jsTrim content = "" then (false, Calls.zero)
  else
    match w.msgCreateResp with
    | none => (false, ⟨0, 0, 0, 0, 1⟩)
    | some none => (false, ⟨0, 0, 0, 0, 1⟩)
    | some (some mid) =>
      if mid = 0 then (false, ⟨0, 0, 0, 0, 1⟩)
      else (true, ⟨0, 0, 0, 0, 1⟩)

/-- Second ApiService draft, `getOrCreateContact` (api.service.ts lines
386-466).  Identical shape to the first draft up to the catch block: on
any thrown error the catch synthesizes `const fallbackId = Date.now()`,
stores it in the cache, and returns it. -/
def Api2.getOrCreateContact (cache : Cache) (w : World) (vkUserId : Nat) :
    Option Nat × Cache × Calls :=
  match Cache.lookup cache vkUserId with
  | some cid => (some cid, cache, Calls.zero)
  | none =>
    match w.contactSearchResp with
    | none => (some w.now, Cache.set cache vkUserId w.now, ⟨1, 0, 0, 0, 0⟩)
    | some (contact :: _) =>
        (some contact, Cache.set cache vkUserId contact, ⟨1, 0, 0, 0, 0⟩)
    | some [] =>
      match w.contactCreateResp with
      | none => (some w.now, Cache.set cache vkUserId w.now, ⟨1, 1, 0, 0, 0⟩)
      | some none => (some w.now, Cache.set cache vkUserId w.now, ⟨1, 1, 0, 0, 0⟩)
      | some (some cid) =>
        if cid = 0 then (some w.now, Cache.set cache vkUserId w.now, ⟨1, 1, 0, 0, 0⟩)
        else (some cid, Cache.set cache vkUserId cid, ⟨1, 1, 0, 0, 0⟩)

/-- Second ApiService draft, `getOrCreateConversation` (api.service.ts
lines 468-536).  No contact-id guard; the search takes `payload[0]`
without re-checking its status; the catch returns `Date.now()` as a
fallback conversation id. -/
def Api2.getOrCreateConversation (w : World) (vkUserId : Nat)
    (contactId : Nat) : Option Nat × Calls :=
  match w.convSearchResp with
  | none => (some w.now, ⟨0, 0, 1, 0, 0⟩)
  | some (conv :: _) => (some conv.id, ⟨0, 0, 1, 0, 0⟩)
  | some [] =>
    match w.convCreateResp with
    | none => (some w.now, ⟨0, 0, 1, 1, 0⟩)
    | some none => (some w.now, ⟨0, 0, 1, 1, 0⟩)
    | some (some cid) =>
      if cid = 0 then (some w.now, ⟨0, 0, 1, 1, 0⟩)
      else (some cid, ⟨0, 0, 1, 1, 0⟩)

/-- Second ApiService draft, `sendMessage` (api.service.ts lines 538-574).
Empty-after-trim content skips with no call; otherwise POST and return
true on any 2xx response — the body is not inspected. -/
def Api2.sendMessage (w : World) (conversationId : Nat) (content : String) :
    Bool × Calls :=
  if jsTrim content = "" then (false, Calls.zero)
  else
    match w.msgCreateResp with
    | none => (false, ⟨0, 0, 0, 0, 1⟩)
    | some _ => (true, ⟨0, 0, 0, 0, 1⟩)

/-- ApiService draft in src/unnamed/part_000, `sendMessage` (lines
220-259).  Guard `!content || content.trim().length === 0` skips with no
call; otherwise POST and return true on any 2xx response, without
checking for a message id in the body. -/
def Api0.sendMessage (w : World) (conversationId : Nat) (content : String) :
    Bool × Calls :=
  if jsTrim content = "" then (false, Calls.zero)
  else
    match w.msgCreateResp with
    | none => (false, ⟨0, 0, 0, 0, 1⟩)
    | some _ => (true, ⟨0, 0, 0, 0, 1⟩)

/-- The message object inside a `message_new` event
(`body.object.message`): the fields the controllers read.  `text` models
`message.text || ""`, so an absent text is the empty string. -/
structure Msg where
  fromId : Nat
  text : String
deriving DecidableEq, Repr

/-- An inbound webhook delivery: the envelope fields the controllers
read, from the POST body and the query string.  `none` models an absent
field; `objMessage = none` models a `body.object` without a readable
`message` (accessing it throws a TypeError). -/
structure InboundEvent where
  bodyType : Option String
  queryType : Option String
  groupId : Option Nat
  secret : Option String
  objMessage : Option Msg
deriving DecidableEq, Repr

/-- The controller configuration read at construction time:
`VK_CONFIRMATION`, the parsed `VK_GROUP_ID`, and the optional
`VK_SECRET`. -/
structure Config where
  vkConfirmation : String
  vkGroupId : Nat
  vkSecret : Option String
deriving DecidableEq, Repr

/-- JS truthiness of an optional string field: present and non-empty. -/
def truthyStr : Option String → Bool
  | some s => s != ""
  | none => false

/-- `const eventType = body.type || query.type`. -/
def eventTypeOf (ev : InboundEvent) : Option String :=
  if truthyStr ev.bodyType then ev.bodyType else ev.queryType

/-- `body.group_id && parseInt(body.group_id) !== this.vkGroupId`: true
when the field is present and truthy (non-zero) yet differs from the
configured group id. -/
def groupMismatch : Option Nat → Nat → Bool
  | some g, cfgId => g != 0 && g != cfgId
  | none, _ => false

/-- First VkController draft, `handleMessageNew` (vk.controller.ts lines
64-103).  Reads `message.from_id` and `message.text || ""` (a missing
message throws, and the method-level catch swallows it), fetches VK user
info (which never throws and is not a helpdesk call), then runs contact →
conversation → send, stopping at the first falsy id. -/
def Ctrl1.handleMessageNew (cache : Cache) (w : World)
    (objMessage : Option Msg) : Cache × Calls :=
  match objMessage with
  | none => (cache, Calls.zero)
  | some msg =>
    match Api1.getOrCreateContact cache w msg.fromId with
    | (none, cache1, calls1) => (cache1, calls1)
    | (some contactId, cache1, calls1) =>
      if contactId = 0 then (cache1, calls1)
      else
        match Api1.getOrCreateConversation w msg.fromId contactId with
        | (none, calls2) => (cache1, Calls.add calls1 calls2)
        | (some convId, calls2) =>
          if convId = 0 then (cache1, Calls.add calls1 calls2)
          else
            let sent := Api1.sendMessage w convId msg.text
            (cache1, Calls.add (Calls.add calls1 calls2) sent.2)

/-- First VkController draft, `handleCallback` (vk.controller.ts lines
21-62).  Confirmation returns the configured token with no other work; a
truthy mismatching `group_id` acknowledges without processing; the
try/switch dispatches `message_new` and logs everything else
(`message_typing_state` and the default case do nothing); the catch
swallows any error; the reply is "ok" on every non-confirmation path. -/
def Ctrl1.handleCallback (cfg : Config) (cache : Cache) (w : World)
    (ev : InboundEvent) : String × Cache × Calls :=
  if eventTypeOf ev = some "confirmation" then
    (cfg.vkConfirmation, cache, Calls.zero)
  else if groupMismatch ev.groupId cfg.vkGroupId then
    ("ok", cache, Calls.zero)
  else if eventTypeOf ev = some "message_new" then
    let r := Ctrl1.handleMessageNew cache w ev.objMessage
    ("ok", r.1, r.2)
  else ("ok", cache, Calls.zero)

/-- Second VkController draft, `handleMessageNew` (vk.controller.ts lines
293-320).  No falsy-id guards: it chains the second-draft service calls
directly (those never return null); a missing `body.object.message`
throws, which this method rethrows to `handleCallback`. -/
def Ctrl2.handleMessageNew (cache : Cache) (w : World)
    (objMessage : Option Msg) : Cache × Calls :=
  match objMessage with
  | none => (cache, Calls.zero)
  | some msg =>
    match Api2.getOrCreateContact cache w msg.fromId with
    | (none, cache1, calls1) => (cache1, calls1)
    | (some contactId, cache1, calls1) =>
      match Api2.getOrCreateConversation w msg.fromId contactId with
      | (none, calls2) => (cache1, Calls.add calls1 calls2)
      | (some convId, calls2) =>
        let sent := Api2.sendMessage w convId msg.text
        (cache1, Calls.add (Calls.add calls1 calls2) sent.2)

/-- Second VkController draft, `handleCallback` (vk.controller.ts lines
216-288).  The whole body sits in a try/catch whose catch returns "ok".
After the confirmation branch, `body.secret && body.secret !==
VK_SECRET` throws a 403 HttpException (caught → "ok"), then the group-id
check throws a 400 (caught → "ok"), then the switch dispatches
`message_new`; every other recognized or unrecognized type only logs. -/
def Ctrl2.handleCallback (cfg : Config) (cache : Cache) (w : World)
    (ev : InboundEvent) : String × Cache × Calls :=
  if eventTypeOf ev = some "confirmation" then
    (cfg.vkConfirmation, cache, Calls.zero)
  else if truthyStr ev.secret = true ∧ ev.secret ≠ cfg.vkSecret then
    ("ok", cache, Calls.zero)
  else if groupMismatch ev.groupId cfg.vkGroupId then
    ("ok", cache, Calls.zero)
  else if eventTypeOf ev = some "message_new" then
    let r := Ctrl2.handleMessageNew cache w ev.objMessage
    ("ok", r.1, r.2)
  else ("ok", cache, Calls.zero)

/-- A world in which every remote call fails (network unreachable). -/
def wFail : World := ⟨none, none, none, none, none, 1700000000000⟩

/-- A world in which both searches find nothing and every create
succeeds: contact id 7, conversation id 8, message id 9. -/
def wOk : World := ⟨some [], some (some 7), some [], some (some 8), some (some 9), 1000⟩

/-- A sample configuration: confirmation token, group id 55, shared
secret "s". -/
def cfgA : Config := ⟨"tok123", 55, some "s"⟩

theorem lookup_set_self (c : Cache) (k v : Nat) :
    Cache.lookup (Cache.set c k v) k = some v := by
  simp [Cache.set, Cache.lookup]

theorem lookup_set_ne (c : Cache) (k1 k2 v : Nat) (h : k1 ≠ k2) :
    Cache.lookup (Cache.set c k1 v) k2 = Cache.lookup c k2 := by
  simp [Cache.set, Cache.lookup, h]

/-- Whenever the first ApiService draft resolves a contact id, the
resulting cache maps the user to exactly that id. -/
theorem api1_contact_result_cached (cache : Cache) (w : World)
    (uid cid : Nat) (c2 : Cache) (calls : Calls)
    (h : Api1.getOrCreateContact cache w uid = (some cid, c2, calls)) :
    Cache.lookup c2 uid = some cid := by
  unfold Api1.getOrCreateContact at h
  split at h
  · simp_all
  · split at h
    · simp_all
    · obtain ⟨h1, h2, h3⟩ := by simpa using h
      subst h1; subst h2
      exact lookup_set_self _ _ _
    · split at h
      · simp_all
      · simp_all
      · split at h
        · simp_all
        · obtain ⟨h1, h2, h3⟩ := by simpa using h
          subst h1; subst h2
          exact lookup_set_self _ _ _

/-- Claim C3: with a warm identity cache, `getOrCreateContact` of the
first ApiService draft returns the cached id immediately with zero
helpdesk calls and an unchanged cache; consequently a second call right
after any successful resolution returns the same id as the first call
and issues no network call. -/
theorem C3_contact_idempotent (cache c2 : Cache) (w w2 : World)
    (uid cid : Nat) (calls : Calls) :
    (Cache.lookup cache uid = some cid →
      Api1.getOrCreateContact cache w uid = (some cid, cache, Calls.zero)) ∧
    (Api1.getOrCreateContact cache w uid = (some cid, c2, calls) →
      Api1.getOrCreateContact c2 w2 uid = (some cid, c2, Calls.zero)) := by
  constructor
  · intro h
    unfold Api1.getOrCreateContact
    rw [h]
  · intro h
    have hc := api1_contact_result_cached cache w uid cid c2 calls h
    unfold Api1.getOrCreateContact
    rw [hc]

/-- Witness for C3: user 7 cached at id 3 resolves to 3 with no calls;
and after a cold resolution of user 7 in the all-successful world, the
second call returns the same id 7 from the cache with no calls. -/
theorem C3_contact_idempotent_witness :
    Api1.getOrCreateContact [(7, 3)] wFail 7 = (some 3, [(7, 3)], Calls.zero) ∧
    Api1.getOrCreateContact [(7, 7)] wFail 7 = (some 7, [(7, 7)], Calls.zero) :=
  ⟨(C3_contact_idempotent [(7, 3)] [(7, 3)] wFail wOk 7 3 Calls.zero).1 (by decide),
   (C3_contact_idempotent [] [(7, 7)] wOk wFail 7 7 ⟨1, 1, 0, 0, 0⟩).2 (by decide)⟩

/-- Claim C4: on a cache miss, when the remote contact search by the
identifier returns a non-empty payload, the first ApiService draft
returns the first match, caches it, and issues no contact-create call
(exactly one search and nothing else). -/
theorem C4_search_dedup (cache : Cache) (w : World) (uid cid : Nat)
    (rest : List Nat)
    (hc : Cache.lookup cache uid = none)
    (hs : w.contactSearchResp = some (cid :: rest)) :
    Api1.getOrCreateContact cache w uid
      = (some cid, Cache.set cache uid cid, ⟨1, 0, 0, 0, 0⟩) := by
  unfold Api1.getOrCreateContact
  rw [hc, hs]

/-- Witness for C4: cold cache, search finds contacts 21 and 22; the
result is 21, cached, with one search call and zero create calls. -/
theorem C4_search_dedup_witness :
    Api1.getOrCreateContact [] ⟨some [21, 22], none, none, none, none, 5⟩ 42
      = (some 21, [(42, 21)], ⟨1, 0, 0, 0, 0⟩) :=
  C4_search_dedup [] ⟨some [21, 22], none, none, none, none, 5⟩ 42 21 [22]
    (by decide) (by decide)

/-- Claim C8: for every conversation id and every content that trims to
the empty string, the first ApiService draft `sendMessage` skips: it
returns false without making any network call. -/
theorem C8_empty_skip (w : World) (conversationId : Nat) (content : String)
    (h : jsTrim content = "") :
    Api1.sendMessage w conversationId content = (false, Calls.zero) := by
  unfold Api1.sendMessage
  rw [if_pos (Or.inr h)]

/-- Witness for C8: whitespace-only text on conversation 5 in a fully
healthy world is skipped with zero calls. -/
theorem C8_empty_skip_witness :
    Api1.sendMessage wOk 5 "   " = (false, Calls.zero) :=
  C8_empty_skip wOk 5 "   " (by decide)

/-- Claim C6: whenever the event type taken from the body or the query
equals "confirmation", the first VkController draft returns exactly the
configured confirmation token, leaves the cache untouched, and performs
no contact, conversation, or message call. -/
theorem C6_confirmation_token (cfg : Config) (cache : Cache) (w : World)
    (ev : InboundEvent)
    (h : eventTypeOf ev = some "confirmation") :
    Ctrl1.handleCallback cfg cache w ev = (cfg.vkConfirmation, cache, Calls.zero) := by
  unfold Ctrl1.handleCallback
  rw [if_pos h]

/-- Witness for C6: a confirmation event carried in the query string
(empty body type) returns the configured token with zero calls. -/
theorem C6_confirmation_token_witness :
    Ctrl1.handleCallback cfgA [] wOk
      ⟨none, some "confirmation", some 55, none, none⟩
      = ("tok123", [], Calls.zero) :=
  C6_confirmation_token cfgA [] wOk
    ⟨none, some "confirmation", some 55, none, none⟩ (by decide)

/-- Claim C1: for every inbound event whose resolved type is not
"confirmation", the first VkController draft `handleCallback` replies
"ok" — for every oracle world, including ones where every downstream
helpdesk call throws, since all errors are caught inside the pipeline
and never reach the webhook response. -/
theorem C1_always_ack (cfg : Config) (cache : Cache) (w : World)
    (ev : InboundEvent)
    (h : eventTypeOf ev ≠ some "confirmation") :
    (Ctrl1.handleCallback cfg cache w ev).1 = "ok" := by
  unfold Ctrl1.handleCallback
  rw [if_neg h]
  split
  · rfl
  · split <;> rfl

/-- Witness for C1: a `message_new` event processed against the world
where every remote call fails still gets the "ok" acknowledgment. -/
theorem C1_always_ack_witness :
    (Ctrl1.handleCallback cfgA [] wFail
      ⟨some "message_new", none, some 55, none, some ⟨42, "hello"⟩⟩).1 = "ok" :=
  C1_always_ack cfgA [] wFail
    ⟨some "message_new", none, some 55, none, some ⟨42, "hello"⟩⟩ (by decide)

/-- Claim C2: a `message_new` event from user 42 with text "hello", a
cold cache, searches that find nothing, and creates that succeed (contact
id `cid`, conversation id `vid`, message id `mid`, all truthy) yields the
"ok" reply, exactly one call to each of the five endpoints — in
particular exactly one contact-create, one conversation-create and one
message-create — and a final cache mapping 42 to the created contact id. -/
theorem C2_end_to_end (cfg : Config) (w : World) (cid vid mid : Nat)
    (h1 : w.contactSearchResp = some [])
    (h2 : w.contactCreateResp = some (some cid)) (h3 : cid ≠ 0)
    (h4 : w.convSearchResp = some [])
    (h5 : w.convCreateResp = some (some vid)) (h6 : vid ≠ 0)
    (h7 : w.msgCreateResp = some (some mid)) (h8 : mid ≠ 0) :
    Ctrl1.handleCallback cfg [] w
      ⟨some "message_new", none, none, none, some ⟨42, "hello"⟩⟩
      = ("ok", [(42, cid)], ⟨1, 1, 1, 1, 1⟩) := by
  have hA : Api1.getOrCreateContact [] w 42
      = (some cid, [(42, cid)], ⟨1, 1, 0, 0, 0⟩) := by
    unfold Api1.getOrCreateContact
    rw [show Cache.lookup [] 42 = none from rfl, h1, h2]
    dsimp only
    rw [if_neg h3]
    rfl
  have hB : Api1.getOrCreateConversation w 42 cid = (some vid, ⟨0, 0, 1, 1, 0⟩) := by
    unfold Api1.getOrCreateConversation
    rw [if_neg h3, h4]
    simp only [List.find?_nil, h5]
    rw [if_neg h6]
  have hC : Api1.sendMessage w vid "hello" = (true, ⟨0, 0, 0, 0, 1⟩) := by
    unfold Api1.sendMessage
    rw [if_neg]
    · simp only [h7]
      rw [if_neg h8]
    · push_neg
      exact ⟨h6, by decide⟩
  have hM : Ctrl1.handleMessageNew [] w (some ⟨42, "hello"⟩)
      = ([(42, cid)], ⟨1, 1, 1, 1, 1⟩) := by
    unfold Ctrl1.handleMessageNew
    simp only [hA]
    rw [if_neg h3]
    simp only [hB]
    rw [if_neg h6]
    simp only [hC]
    rfl
  unfold Ctrl1.handleCallback
  rw [if_neg (by decide), if_neg (by simp [groupMismatch]), if_pos (by decide)]
  simp only [hM]

/-- Witness for C2: the all-successful sample world creates contact 7,
conversation 8, message 9; the reply is "ok", each endpoint is hit once,
and the cache ends as 42 ↦ 7. -/
theorem C2_end_to_end_witness :
    Ctrl1.handleCallback cfgA [] wOk
      ⟨some "message_new", none, none, none, some ⟨42, "hello"⟩⟩
      = ("ok", [(42, 7)], ⟨1, 1, 1, 1, 1⟩) :=
  C2_end_to_end cfgA wOk 7 8 9 rfl rfl (by decide) rfl rfl (by decide) rfl (by decide)

/-- Counterexample to claim C5 as stated: in the first ApiService draft
(the code at api.service.ts lines 133-142 cited by the claim), a network
failure during the contact search makes `getOrCreateContact` return
`null` — no placeholder contact id is synthesized, nothing is cached (the
cache stays empty), and the caller stops the pipeline on the falsy
result. -/
theorem C5_counterexample :
    Api1.getOrCreateContact [] wFail 5 = (none, [], ⟨1, 0, 0, 0, 0⟩) := by decide

/-- Shared helper: second ApiService draft, failed contact search — the
catch caches and returns `Date.now()`. -/
theorem api2_contact_search_fail (cache : Cache) (w : World) (uid : Nat)
    (hc : Cache.lookup cache uid = none) (hw : w.contactSearchResp = none) :
    Api2.getOrCreateContact cache w uid
      = (some w.now, Cache.set cache uid w.now, ⟨1, 0, 0, 0, 0⟩) := by
  unfold Api2.getOrCreateContact
  rw [hc, hw]

/-- Claim C5, amended: the fallback identity policy lives only in the
second ApiService draft.  There, on a cache miss, a failure of the
contact search — or an empty search followed by a failed create — makes
`getOrCreateContact` return `Date.now()` as a placeholder id and cache it
for the user, and a failed conversation search makes
`getOrCreateConversation` return `Date.now()`; the placeholder is only as
unique as the clock value.  The first draft returns `null` instead. -/
theorem C5_fallback_policy (cache : Cache) (w : World) (uid cid : Nat)
    (hc : Cache.lookup cache uid = none) :
    (w.contactSearchResp = none →
      Api2.getOrCreateContact cache w uid
        = (some w.now, Cache.set cache uid w.now, ⟨1, 0, 0, 0, 0⟩)) ∧
    (w.contactSearchResp = some [] → w.contactCreateResp = none →
      Api2.getOrCreateContact cache w uid
        = (some w.now, Cache.set cache uid w.now, ⟨1, 1, 0, 0, 0⟩)) ∧
    (w.convSearchResp = none →
      Api2.getOrCreateConversation w uid cid = (some w.now, ⟨0, 0, 1, 0, 0⟩)) := by
  refine ⟨fun hw => api2_contact_search_fail cache w uid hc hw, fun hs hcr => ?_, fun hv => ?_⟩
  · unfold Api2.getOrCreateContact
    rw [hc, hs, hcr]
  · unfold Api2.getOrCreateConversation
    rw [hv]

/-- Witness for C5 (amended): in the all-failing world the second draft
resolves user 5 to the clock value 1700000000000, caches it, and also
synthesizes that value as the conversation id. -/
theorem C5_fallback_policy_witness :
    Api2.getOrCreateContact [] wFail 5
      = (some 1700000000000, [(5, 1700000000000)], ⟨1, 0, 0, 0, 0⟩) ∧
    Api2.getOrCreateConversation wFail 5 9
      = (some 1700000000000, ⟨0, 0, 1, 0, 0⟩) :=
  ⟨(C5_fallback_policy [] wFail 5 9 (by decide)).1 (by decide),
   (C5_fallback_policy [] wFail 5 9 (by decide)).2.2 (by decide)⟩

/-- Counterexample to claim C7 as stated: the secret guard of the second
VkController draft is `body.secret && body.secret !== VK_SECRET`, so an
event that carries NO secret field does not match the configured secret
"s" yet is processed in full — here a `message_new` event with an absent
secret reaches the downstream pipeline and produces a message-create
call (and the reply is "ok"). -/
theorem C7_counterexample :
    cfgA.vkSecret = some "s" ∧
    (⟨some "message_new", none, none, none, some ⟨42, "hello"⟩⟩ : InboundEvent).secret = none ∧
    (Ctrl2.handleCallback cfgA [] wOk
      ⟨some "message_new", none, none, none, some ⟨42, "hello"⟩⟩).2.2.msgCreate = 1 ∧
    (Ctrl2.handleCallback cfgA [] wOk
      ⟨some "message_new", none, none, none, some ⟨42, "hello"⟩⟩).1 = "ok" := by
  decide

/-- Claim C7, amended: when the inbound event carries a non-empty secret
field that differs from the configured secret (in the second
VkController draft, the only one with a secret check), the dispatcher
throws before dispatching, the outer catch swallows the error, the reply
is still "ok", and no contact, conversation, or message call is made;
however an event whose secret field is absent or empty is processed
normally even when a secret is configured. -/
theorem C7_secret_reject (cfg : Config) (cache : Cache) (w : World)
    (ev : InboundEvent) (s : String)
    (hs : ev.secret = some s) (hne : s ≠ "")
    (hmm : some s ≠ cfg.vkSecret)
    (ht : eventTypeOf ev ≠ some "confirmation") :
    Ctrl2.handleCallback cfg cache w ev = ("ok", cache, Calls.zero) := by
  unfold Ctrl2.handleCallback
  rw [if_neg ht, if_pos]
  constructor
  · rw [hs]
    simpa [truthyStr] using hne
  · rw [hs]
    exact hmm

/-- Witness for C7 (amended): a `message_new` event bearing secret "bad"
against configured secret "s" gets "ok" back with zero downstream
calls even though the world would let the pipeline succeed. -/
theorem C7_secret_reject_witness :
    Ctrl2.handleCallback cfgA [] wOk
      ⟨some "message_new", none, none, some "bad", some ⟨42, "hello"⟩⟩
      = ("ok", [], Calls.zero) :=
  C7_secret_reject cfgA [] wOk
    ⟨some "message_new", none, none, some "bad", some ⟨42, "hello"⟩⟩
    "bad" rfl (by decide) (by decide) (by decide)

/-- Counterexample to claim C9 as stated: the `sendMessage` draft in
src/unnamed/part_000 (lines 237-258, cited by the claim) does not inspect
the response body: on a 2xx response that carries no message id it still
returns Delivered (true), where the claim requires Failed. -/
theorem C9_counterexample :
    Api0.sendMessage ⟨some [], some (some 7), some [], some (some 8), some none, 1000⟩
      5 "hello" = (true, ⟨0, 0, 0, 0, 1⟩) := by decide

/-- Claim C9, amended: in the canonical `sendMessage` of
src/src/vk/api.service.ts (first draft), for a truthy conversation id and
text that is non-empty after trimming, the result is Delivered (true)
exactly when the POST returns 2xx with a truthy message id in the
response body, and Failed (false) in every other case, always with
exactly one message-create call and no retry; the part_000 draft instead
returns Delivered on any 2xx response without checking the id. -/
theorem C9_delivered_iff (w : World) (conversationId : Nat) (content : String)
    (hconv : conversationId ≠ 0) (htext : jsTrim content ≠ "") :
    ((Api1.sendMessage w conversationId content).1 = true ↔
      (∃ mid, w.msgCreateResp = some (some mid) ∧ mid ≠ 0)) ∧
    (Api1.sendMessage w conversationId content).2 = ⟨0, 0, 0, 0, 1⟩ := by
  unfold Api1.sendMessage
  rw [if_neg (by push_neg; exact ⟨hconv, htext⟩)]
  match hm : w.msgCreateResp with
  | none => simp
  | some none => simp
  | some (some mid) =>
    by_cases h0 : mid = 0
    · subst h0
      simp
    · dsimp only
      rw [if_neg h0]
      simp [h0]

/-- Witness for C9 (amended): in the sample world whose message create
returns id 9, sending "hello" on conversation 8 is Delivered with one
call. -/
theorem C9_delivered_iff_witness :
    ((Api1.sendMessage wOk 8 "hello").1 = true ↔
      (∃ mid, wOk.msgCreateResp = some (some mid) ∧ mid ≠ 0)) ∧
    (Api1.sendMessage wOk 8 "hello").2 = ⟨0, 0, 0, 0, 1⟩ :=
  C9_delivered_iff wOk 8 "hello" (by decide) (by decide)

/-- Claim C10: the identity cache only grows.  Both `getOrCreateContact`
drafts — the only code that writes the cache; the conversation and
message functions do not take it — preserve every existing entry.
Moreover, in the second draft, after the failure path has cached a
synthesized id for a user, every later call for that user (under any
world, even a healthy one) returns the cached synthesized id with zero
network calls, so the remote resolution is never retried. -/
theorem C10_cache_persistent (cache : Cache) (w w2 : World) (uid k v : Nat) :
    (Cache.lookup cache k = some v →
      Cache.lookup (Api1.getOrCreateContact cache w uid).2.1 k = some v) ∧
    (Cache.lookup cache k = some v →
      Cache.lookup (Api2.getOrCreateContact cache w uid).2.1 k = some v) ∧
    (Cache.lookup cache uid = none → w.contactSearchResp = none →
      Api2.getOrCreateContact (Api2.getOrCreateContact cache w uid).2.1 w2 uid
        = (some w.now, (Api2.getOrCreateContact cache w uid).2.1, Calls.zero)) := by
  have hset : ∀ (x : Nat), Cache.lookup cache uid = none →
      Cache.lookup cache k = some v →
      Cache.lookup (Cache.set cache uid x) k = some v := by
    intro x hn hk
    have hku : uid ≠ k := fun h => by rw [h, hk] at hn; exact Option.noConfusion hn
    rw [lookup_set_ne cache uid k x hku]
    exact hk
  refine ⟨fun hk => ?_, fun hk => ?_, fun hn hw => ?_⟩
  · unfold Api1.getOrCreateContact
    split
    · exact hk
    · split
      · exact hk
      · exact hset _ (by assumption) hk
      · split
        · exact hk
        · exact hk
        · split
          · exact hk
          · exact hset _ (by assumption) hk
  · unfold Api2.getOrCreateContact
    split
    · exact hk
    · split
      · exact hset _ (by assumption) hk
      · exact hset _ (by assumption) hk
      · split
        · exact hset _ (by assumption) hk
        · exact hset _ (by assumption) hk
        · split
          · exact hset _ (by assumption) hk
          · exact hset _ (by assumption) hk
  · rw [api2_contact_search_fail cache w uid hn hw]
    unfold Api2.getOrCreateContact
    rw [lookup_set_self cache uid w.now]

/-- Witness for C10: resolving user 5 in the all-failing world preserves
the unrelated entry 3 ↦ 4 in both drafts, and the second call for user 5
returns the cached synthesized id 1700000000000 with zero calls. -/
theorem C10_cache_persistent_witness :
    Cache.lookup (Api1.getOrCreateContact [(3, 4)] wFail 5).2.1 3 = some 4 ∧
    Cache.lookup (Api2.getOrCreateContact [(3, 4)] wFail 5).2.1 3 = some 4 ∧
    Api2.getOrCreateContact (Api2.getOrCreateContact [(3, 4)] wFail 5).2.1 wOk 5
      = (some 1700000000000, (Api2.getOrCreateContact [(3, 4)] wFail 5).2.1, Calls.zero) :=
  ⟨(C10_cache_persistent [(3, 4)] wFail wOk 5 3 4).1 (by decide),
   (C10_cache_persistent [(3, 4)] wFail wOk 5 3 4).2.1 (by decide),
   (C10_cache_persistent [(3, 4)] wFail wOk 5 3 4).2.2 (by decide) (by decide)⟩

end Webhook
